import Mathlib

/-!
# Verification of the loop core of a training orchestrator

Shallow embedding of three Python source files:
  - `pytorch_lightning/loops/base.py` (`Loop`, the generic run-until-done engine),
  - `pytorch_lightning/loops/evaluation_loop.py` (`EvaluationLoop`),
  - `pytorch_lightning/loops/fit_loop.py` (`FitLoop`).

Python `int` is modelled as `Int`, `Optional[int]` as `Option Int`.  Mutation of
`self` and of the shared trainer context is modelled by explicit state passing:
a method that mutates state takes the state and returns the updated state.
Calls out to collaborators (hooks, loggers, profiler, accelerator) are recorded
in an effect trace (a `List String`), since their internals are out of scope.
Python exceptions are modelled by `Option PyExc` results: `none` means normal
return, `some e` means the call raised `e`.
-/

/-- Python truthiness of an `Optional[int]`: `None` and `0` are falsy,
every other integer is truthy.  Used for `if self.min_epochs` / `if self.min_steps`. -/
def pyTruthy : Option Int → Bool
  | none => false
  | some n => n != 0

/-- A Python exception as seen by `Loop.run`: `StopIteration` is caught by the
run loop, everything else propagates to the caller. -/
inductive PyExc where
  | stopIteration
  | other (msg : String)
deriving DecidableEq

/-!
## `Loop` (base.py): the generic iteration engine

A concrete loop is a record of its `done` predicate, its hooks and its
`advance` step over a state type `σ`, producing a result of type `ρ` from
`on_run_end`.  `done` may update the state (FitLoop's `done` clears the
trainer's `should_stop` flag when a stop request is deferred).  Hooks and
`advance` return `σ × Option PyExc`: the state reached at normal return, or at
the point the exception was raised.
-/

structure LoopSpec (σ ρ : Type) where
  reset : σ → σ
  done : σ → Bool × σ
  on_run_start : σ → σ × Option PyExc
  on_advance_start : σ → σ × Option PyExc
  advance : σ → σ × Option PyExc
  on_advance_end : σ → σ × Option PyExc
  on_run_end : σ → σ × ρ
  iteration_count_get : σ → Int
  iteration_count_set : Int → σ → σ
  increment_iteration : Int → Int

namespace Loop

/-- The `while not self.done:` loop of `Loop.run`, with the `try/except
StopIteration: break` body.  `fuel` bounds the number of iterations (every run
in this development terminates well within its fuel).  Returns the final state
and `none`, or the state and exception if a non-`StopIteration` exception
escaped the loop body. -/
def runCatch (L : LoopSpec σ ρ) : Nat → σ → σ × Option PyExc
  | 0, s => (s, none)
  | fuel + 1, s =>
    let p := L.done s
    if p.1 then (p.2, none)
    else
      let q₁ := L.on_advance_start p.2
      match q₁.2 with
      | some PyExc.stopIteration => (q₁.1, none)
      | some e => (q₁.1, some e)
      | none =>
        let q₂ := L.advance q₁.1
        match q₂.2 with
        | some PyExc.stopIteration => (q₂.1, none)
        | some e => (q₂.1, some e)
        | none =>
          let q₃ := L.on_advance_end q₂.1
          match q₃.2 with
          | some PyExc.stopIteration => (q₃.1, none)
          | some e => (q₃.1, some e)
          | none =>
            runCatch L fuel
              (L.iteration_count_set (L.increment_iteration (L.iteration_count_get q₃.1)) q₃.1)

/-- `Loop.run`: reset, `on_run_start`, the guarded while loop, then
`on_run_end` whose value is the run's result.  A non-`StopIteration` exception
raised anywhere propagates: the result is `none` and the exception is returned
(`on_run_end` is then never reached). -/
def run (L : LoopSpec σ ρ) (fuel : Nat) (s₀ : σ) : (σ × Option ρ) × Option PyExc :=
  let s₁ := L.reset s₀
  let q := L.on_run_start s₁
  match q.2 with
  | some e => ((q.1, none), some e)
  | none =>
    let r := runCatch L fuel q.1
    match r.2 with
    | some e => ((r.1, none), some e)
    | none =>
      let fin := L.on_run_end r.1
      ((fin.1, some fin.2), none)

end Loop

/-!
## `EvaluationLoop` (evaluation_loop.py)

Batches are modelled as `Int`, a dataloader iterator as the list of
`(batch_idx, batch)` pairs it has yet to yield (a `None` batch is
`Option.none`).  A step output (`STEP_OUTPUT`) is either a structured
`ResultCollection` (with an optional `predictions` entry) or a plain value.
-/

/-- A `STEP_OUTPUT`: either a `ResultCollection` — the structured container on
which `store_predictions` performs `output.pop('predictions', None)` — or a
plain value. -/
inductive StepOutput where
  | resultCollection (predictions : Option Int) (payload : Int)
  | plain (payload : Int)
deriving DecidableEq

/-- `PredictionCollection(global_rank, world_size)` with the values passed to
its `add` method so far. -/
structure PredictionCollection where
  global_rank : Int
  world_size : Int
  added : List (Option Int)
deriving DecidableEq

/-- The trainer-context capabilities `EvaluationLoop` consumes: the `testing`
mode flag, the distributed rank/world size, the accelerator step dispatch, the
step-end hook aggregation, and the `_track_output_for_epoch_end` accumulation
policy. -/
structure EvalTrainer where
  testing : Bool
  global_rank : Int
  world_size : Int
  test_step : List (String × Int) → Option StepOutput
  validation_step : List (String × Int) → Option StepOutput
  call_hook_step_end : String → Option StepOutput → Option StepOutput
  track_output_for_epoch_end : List StepOutput → Option StepOutput → List StepOutput

/-- The `EvaluationLoop`-owned mutable state, plus the dataloader iterator
(shared mutable run argument) and the trace of collaborator calls. -/
structure EvalState where
  iteration_count : Int
  predictions : Option PredictionCollection
  dl_max_batches : Option Int
  dataloader_idx : Option Int
  num_dataloaders : Option Int
  outputs : List StepOutput
  dataloader_iter : List (Int × Option Int)
  trace : List String
deriving DecidableEq

namespace EvalState

/-- Record one collaborator call. -/
def addTrace (name : String) (s : EvalState) : EvalState :=
  { s with trace := s.trace ++ [name] }

end EvalState

namespace EvaluationLoop

/-- `EvaluationLoop.done: return self.iteration_count >= self.dl_max_batches`.
`none` models the `TypeError` Python raises when `dl_max_batches` is still
`None` (it is set by `on_run_start` before `done` is first consulted inside a
run). -/
def done? (self : EvalState) : Option Bool :=
  self.dl_max_batches.map fun m => decide (self.iteration_count ≥ m)

/-- `EvaluationLoop.reset`: zero the iteration count, allocate a fresh
`PredictionCollection(trainer.global_rank, trainer.world_size)`, clear the
bounds, indices and outputs. -/
def reset (trainer : EvalTrainer) (self : EvalState) : EvalState :=
  { self with
    iteration_count := 0
    predictions := some ⟨trainer.global_rank, trainer.world_size, []⟩
    dl_max_batches := none
    dataloader_idx := none
    num_dataloaders := none
    outputs := [] }

/-- `EvaluationLoop.on_run_start(dataloader_iter, dataloader_idx,
dl_max_batches, num_dataloaders)`: capture the per-run parameters. -/
def on_run_start (dataloader_idx dl_max_batches num_dataloaders : Int)
    (self : EvalState) : EvalState × Option PyExc :=
  ({ self with
      dl_max_batches := some dl_max_batches
      dataloader_idx := some dataloader_idx
      num_dataloaders := some num_dataloaders }, none)

/-- `EvaluationLoop._build_kwargs(batch, batch_idx, dataloader_idx)`: an ordered
dict with `batch` and `batch_idx`, plus `dataloader_idx` exactly when the
current mode (test vs validation) has more than one dataloader.  `none` models
the `TypeError` of comparing an unset `num_dataloaders` with 1. -/
def build_kwargs (self : EvalState) (testing : Bool)
    (batch batch_idx dataloader_idx : Int) : Option (List (String × Int)) :=
  match self.num_dataloaders with
  | none => none
  | some n =>
    let step_kwargs := [("batch", batch), ("batch_idx", batch_idx)]
    let multiple_val_loaders := !testing && decide (n > 1)
    let multiple_test_loaders := testing && decide (n > 1)
    if multiple_test_loaders || multiple_val_loaders then
      some (step_kwargs ++ [("dataloader_idx", dataloader_idx)])
    else
      some step_kwargs

/-- `EvaluationLoop.evaluation_step`: build the step kwargs and dispatch to the
accelerator's `test_step` or `validation_step` according to the mode flag.
`none` in the first component models the `TypeError` from `_build_kwargs` when
`num_dataloaders` is unset. -/
def evaluation_step (trainer : EvalTrainer) (batch batch_idx dataloader_idx : Int)
    (self : EvalState) : Option (Option StepOutput) × EvalState :=
  match build_kwargs self trainer.testing batch batch_idx dataloader_idx with
  | none => (none, self)
  | some step_kwargs =>
    if trainer.testing then
      let self := self.addTrace "lightning_module._current_fx_name := test_step"
      let self := self.addTrace "profiler.profile: test_step"
      (some (trainer.test_step step_kwargs), self)
    else
      let self := self.addTrace "lightning_module._current_fx_name := validation_step"
      let self := self.addTrace "profiler.profile: validation_step"
      (some (trainer.validation_step step_kwargs), self)

/-- `EvaluationLoop.evaluation_step_end`: dispatch the `test_step_end` or
`validation_step_end` hook on the step output. -/
def evaluation_step_end (trainer : EvalTrainer) (output : Option StepOutput) :
    Option StepOutput :=
  if trainer.testing then trainer.call_hook_step_end "test_step_end" output
  else trainer.call_hook_step_end "validation_step_end" output

/-- `EvaluationLoop.on_evaluation_batch_start`: logger batch-start, the
`assert self.num_dataloaders is not None` (an `AssertionError` propagates),
logger evaluation-batch-start, then the mode-selected batch-start hook. -/
def on_evaluation_batch_start (trainer : EvalTrainer) (self : EvalState) :
    EvalState × Option PyExc :=
  let self := self.addTrace "logger_connector.on_batch_start"
  match self.num_dataloaders with
  | none => (self, some (PyExc.other "AssertionError"))
  | some _ =>
    let self := self.addTrace "logger_connector.on_evaluation_batch_start"
    if trainer.testing then
      (self.addTrace "call_hook: on_test_batch_start", none)
    else
      (self.addTrace "call_hook: on_validation_batch_start", none)

/-- `EvaluationLoop.store_predictions`: when the output is a
`ResultCollection` and the trainer is testing (and a prediction collection
exists), `predictions.add(output.pop('predictions', None))` — the pop removes
the entry from the output, which is why the possibly-popped output is
returned.  Always tracks the debug eval-loss history. -/
def store_predictions (trainer : EvalTrainer) (output : Option StepOutput)
    (self : EvalState) : Option StepOutput × EvalState :=
  let r :=
    match output, self.predictions with
    | some (StepOutput.resultCollection p payload), some preds =>
      if trainer.testing then
        (some (StepOutput.resultCollection none payload),
         { self with predictions := some { preds with added := preds.added ++ [p] } })
      else (output, self)
    | _, _ => (output, self)
  (r.1, r.2.addTrace "dev_debugger.track_eval_loss_history")

/-- `EvaluationLoop.on_evaluation_batch_end`: the mode-selected batch-end hook,
logger batch-end, then prediction storage (whose pop may alter the output). -/
def on_evaluation_batch_end (trainer : EvalTrainer) (output : Option StepOutput)
    (self : EvalState) : Option StepOutput × EvalState :=
  let self :=
    if trainer.testing then self.addTrace "call_hook: on_test_batch_end"
    else self.addTrace "call_hook: on_validation_batch_end"
  let self := self.addTrace "logger_connector.on_batch_end"
  store_predictions trainer output self

/-- `EvaluationLoop.advance(dataloader_iter, dataloader_idx, ...)` (lines
41-62): `next(dataloader_iter)` — an exhausted iterator raises
`StopIteration`, and so does a `None` batch; otherwise the batch-start hook,
the evaluation step and step-end, the batch-end hook, the eval-step logger
update, and the accumulation of the output into `outputs` via the trainer's
`_track_output_for_epoch_end` policy. -/
def advance (trainer : EvalTrainer) (dataloader_idx : Int) (self : EvalState) :
    EvalState × Option PyExc :=
  match self.dataloader_iter with
  | [] => (self, some PyExc.stopIteration)
  | (batch_idx, batch?) :: rest =>
    let self := { self with dataloader_iter := rest }
    match batch? with
    | none => (self, some PyExc.stopIteration)
    | some batch =>
      let p := on_evaluation_batch_start trainer self
      match p.2 with
      | some e => (p.1, some e)
      | none =>
        let self := p.1
        let self := self.addTrace "profiler.profile: evaluation_step_and_end"
        let q := evaluation_step trainer batch batch_idx dataloader_idx self
        match q.1 with
        | none => (q.2, some (PyExc.other "TypeError"))
        | some output =>
          let output := evaluation_step_end trainer output
          let r := on_evaluation_batch_end trainer output q.2
          let self := r.2.addTrace "logger_connector.update_eval_step_metrics"
          ({ self with outputs := trainer.track_output_for_epoch_end self.outputs r.1 }, none)

/-- `EvaluationLoop.on_run_end: return self.outputs`. -/
def on_run_end (self : EvalState) : EvalState × List StepOutput :=
  (self, self.outputs)

/-- The `LoopSpec` instance `EvaluationLoop` presents to `Loop.run`, with the
per-run arguments `(dataloader_idx, dl_max_batches, num_dataloaders)` closed
over (Python passes the same `*args` to every hook) and the dataloader
iterator living in the state.  `done` is the faithful `done?`; its `getD true`
default stands for the unreachable unset-bound case (`on_run_start` sets
`dl_max_batches` before `done` is first evaluated).  The remaining hooks are
the no-op defaults inherited from `Loop`. -/
def loopSpec (trainer : EvalTrainer) (dataloader_idx dl_max_batches num_dataloaders : Int) :
    LoopSpec EvalState (List StepOutput) :=
  { reset := reset trainer
    done := fun s => ((done? s).getD true, s)
    on_run_start := on_run_start dataloader_idx dl_max_batches num_dataloaders
    on_advance_start := fun s => (s, none)
    advance := advance trainer dataloader_idx
    on_advance_end := fun s => (s, none)
    on_run_end := on_run_end
    iteration_count_get := fun s => s.iteration_count
    iteration_count_set := fun n s => { s with iteration_count := n }
    increment_iteration := fun iteration => iteration + 1 }

end EvaluationLoop

/-!
## `FitLoop` (fit_loop.py) and its child `TrainingEpochLoop`
-/

/-- Modelled from the spec: `TrainingEpochLoop` (training_epoch_loop.py) is not
among the source files; the spec describes it only at contract level ("the
interface FitLoop uses").  Modelled here are exactly the fields FitLoop reads
and writes: `min_steps`/`max_steps` (stored by `TrainingEpochLoop(min_steps,
max_steps)`), `global_step` (the monotonically increasing optimizer-step
counter, starting at 0), `iteration_count` (read as `batch_idx`) and
`batches_seen` (read by `FitLoop.on_advance_end`). -/
structure TrainingEpochLoop where
  iteration_count : Int
  min_steps : Option Int
  max_steps : Option Int
  global_step : Int
  batches_seen : Int
deriving DecidableEq

/-- The `FitLoop`-owned state: its own `iteration_count` (aliased as
`current_epoch`), the `_teardown_already_run` guard, the epoch bounds, and the
exclusively owned child `training_loop`. -/
structure FitLoop where
  iteration_count : Int
  teardown_already_run : Bool
  min_epochs : Option Int
  max_epochs : Option Int
  training_loop : TrainingEpochLoop
deriving DecidableEq

namespace FitLoop

/-- `FitLoop.__init__(min_epochs, max_epochs, min_steps, max_steps)`:
`Loop.__init__` zeroes `iteration_count`; `_teardown_already_run = False`;
`max_epochs = 1000 if (max_epochs is None and max_steps is None) else max_epochs`;
`min_epochs = 1 if (min_epochs is None and min_steps is None) else min_epochs`;
the child is `TrainingEpochLoop(min_steps, max_steps)` with a fresh step counter. -/
def init (min_epochs max_epochs min_steps max_steps : Option Int) : FitLoop :=
  { iteration_count := 0
    teardown_already_run := false
    max_epochs := if max_epochs = none ∧ max_steps = none then some 1000 else max_epochs
    min_epochs := if min_epochs = none ∧ min_steps = none then some 1 else min_epochs
    training_loop :=
      { iteration_count := 0
        min_steps := min_steps
        max_steps := max_steps
        global_step := 0
        batches_seen := 0 } }

/-- `current_epoch` property: alias of `iteration_count`. -/
def current_epoch (self : FitLoop) : Int := self.iteration_count

/-- `global_step` property: read-through to the child. -/
def global_step (self : FitLoop) : Int := self.training_loop.global_step

/-- `min_steps` property: read-through to the child. -/
def min_steps (self : FitLoop) : Option Int := self.training_loop.min_steps

/-- `max_steps` property: read-through to the child. -/
def max_steps (self : FitLoop) : Option Int := self.training_loop.max_steps

/-- `stop_steps = self.max_steps is not None and self.global_step >= self.max_steps`. -/
def stop_steps (self : FitLoop) : Bool :=
  match self.max_steps with
  | none => false
  | some ms => decide (self.global_step ≥ ms)

/-- `stop_epochs = self.max_epochs is not None and self.current_epoch >= self.max_epochs`. -/
def stop_epochs (self : FitLoop) : Bool :=
  match self.max_epochs with
  | none => false
  | some me => decide (self.current_epoch ≥ me)

/-- `met_min_epochs = self.current_epoch >= self.min_epochs if self.min_epochs else True`
(Python truthiness: an unset or zero `min_epochs` counts as met). -/
def met_min_epochs (self : FitLoop) : Bool :=
  if pyTruthy self.min_epochs then decide (self.current_epoch ≥ self.min_epochs.getD 0)
  else true

/-- `met_min_steps = self.global_step >= self.min_steps if self.min_steps else True`. -/
def met_min_steps (self : FitLoop) : Bool :=
  if pyTruthy self.min_steps then decide (self.global_step ≥ self.min_steps.getD 0)
  else true

end FitLoop

/-- The trainer-wide context fields that `FitLoop` reads or writes.  Collaborator
verdicts that are computed outside the three source files
(`trainer.evaluation_loop.should_skip_evaluation(trainer.num_val_batches)`,
`any(cb.save_last and cb.verbose for cb in checkpoint_callbacks)`,
`trainer.logger is not None`, `checkpoint_connector.has_trained`) are carried
as boolean fields. -/
structure FitTrainer where
  should_stop : Bool
  num_training_batches : Int
  reload_dataloaders_every_epoch : Bool
  disable_validation : Bool
  should_skip_evaluation : Bool
  has_trained : Bool
  logger_present : Bool
  num_checkpoint_callbacks : Nat
  any_checkpoint_save_last_verbose : Bool
  running_stage : Option String
deriving DecidableEq

namespace FitLoop

/-- `FitLoop.done` (fit_loop.py lines 106-127).  Reads the loop's bounds and
counters and the trainer's `should_stop` flag; when a stop was requested but a
minimum-duration constraint is unmet, logs and clears `trainer.should_stop`.
Returns the boolean `stop_steps or should_stop or stop_epochs` together with
the (possibly updated) trainer. -/
def done (self : FitLoop) (trainer : FitTrainer) : Bool × FitTrainer :=
  if trainer.should_stop then
    if self.met_min_epochs && self.met_min_steps then
      (self.stop_steps || true || self.stop_epochs, trainer)
    else
      -- log.info("Trainer was signaled to stop but required minimum ... not met")
      (self.stop_steps || false || self.stop_epochs, { trainer with should_stop := false })
  else
    (self.stop_steps || false || self.stop_epochs, trainer)

/-- `FitLoop.reset`: `self.iteration_count = 0` and nothing else. -/
def reset (self : FitLoop) : FitLoop := { self with iteration_count := 0 }

end FitLoop

/-- The full state a `FitLoop` run acts on: the loop (with its child), the
trainer context, and the trace of collaborator calls fired so far (hooks,
loggers, profiler, accelerator, checkpoint callbacks). -/
structure FitState where
  loop : FitLoop
  trainer : FitTrainer
  trace : List String
deriving DecidableEq

namespace FitState

/-- Record one collaborator call (hook dispatch, logger call, ...). -/
def addTrace (name : String) (s : FitState) : FitState :=
  { s with trace := s.trace ++ [name] }

/-- `self.training_loop.global_step -= 1` (one leg of the compatibility shim). -/
def gsDec (s : FitState) : FitState :=
  { s with loop := { s.loop with training_loop :=
      { s.loop.training_loop with global_step := s.loop.training_loop.global_step - 1 } } }

/-- `self.training_loop.global_step += 1` (the other leg of the shim). -/
def gsInc (s : FitState) : FitState :=
  { s with loop := { s.loop with training_loop :=
      { s.loop.training_loop with global_step := s.loop.training_loop.global_step + 1 } } }

end FitState

namespace FitLoop

/-- `FitLoop.check_checkpoint_callback(should_update, is_last)`: a no-op unless
`should_update and trainer.checkpoint_connector.has_trained`; when firing, an
informational log if `is_last` and some callback saves-last verbosely, then
`cb.on_validation_end(trainer, model)` for each registered checkpoint callback. -/
def check_checkpoint_callback (should_update is_last : Bool) (s : FitState) : FitState :=
  if should_update && s.trainer.has_trained then
    let s :=
      if is_last && s.trainer.any_checkpoint_save_last_verbose then
        s.addTrace "rank_zero_info: Saving latest checkpoint..."
      else s
    { s with trace :=
        s.trace ++ List.replicate s.trainer.num_checkpoint_callbacks "checkpoint_callback.on_validation_end" }
  else s

/-- `FitLoop.on_run_start`: move the result accumulators to the device, fire
the `on_train_start` hook.  Never raises in this model. -/
def on_run_start (s : FitState) : FitState × Option PyExc :=
  ((s.addTrace "trainer.results.to(device)").addTrace "call_hook: on_train_start", none)

/-- `FitLoop.on_advance_start`: conditional train-dataloader reset, best-effort
sampler epoch seeding (exceptions suppressed), accumulation-tracker
reconfiguration, epoch-start hooks.  Never raises in this model. -/
def on_advance_start (s : FitState) : FitState × Option PyExc :=
  let s :=
    if s.loop.current_epoch != 0 && s.trainer.reload_dataloaders_every_epoch then
      s.addTrace "trainer.reset_train_dataloader"
    else s
  let s := s.addTrace "train_dataloader.sampler.set_epoch"
  let s := s.addTrace "accumulation_scheduler.on_train_epoch_start"
  let s := s.addTrace "batch_loop.accumulated_loss := TensorRunningAccum"
  let s := s.addTrace "logger_connector.on_epoch_start"
  let s := s.addTrace "call_hook: on_epoch_start"
  (s.addTrace "call_hook: on_train_epoch_start", none)

/-- `FitLoop.advance`: obtain the (processed, profiled) train dataloader, run
the child training-epoch loop over it, and if it produced an output, update the
epoch metrics inside the `global_step -= 1 ... += 1` compatibility shim.  The
child run itself is out of scope (training_epoch_loop.py is not among the
source files), so it is passed in as a collaborator function `child_run` that
transforms the child's state and yields its optional epoch output. -/
def advance (child_run : TrainingEpochLoop → TrainingEpochLoop × Option Int)
    (s : FitState) : FitState × Option PyExc :=
  let s := s.addTrace "accelerator.process_dataloader"
  let s := s.addTrace "data_connector.get_profiled_train_dataloader"
  let s := s.addTrace "profiler.profile: run_training_epoch"
  let r := child_run s.loop.training_loop
  let s := { s with loop := { s.loop with training_loop := r.1 } }
  match r.2 with
  | none => (s, none)
  | some _ =>
    let s := s.gsDec
    let s := s.addTrace "logger_connector.update_train_epoch_metrics"
    (s.gsInc, none)

/-- `FitLoop.on_advance_end`: a no-op when the epoch saw no batches; otherwise
update epoch-scheduled LR schedulers, and when validation did not run
(`disable_validation` or the evaluation loop says to skip), fire the
checkpoint-callback check inside the step-counter shim. -/
def on_advance_end (s : FitState) : FitState × Option PyExc :=
  if s.loop.training_loop.batches_seen = 0 then (s, none)
  else
    let s := s.addTrace "training_loop.update_lr_schedulers: epoch"
    let did_train_only := s.trainer.disable_validation || s.trainer.should_skip_evaluation
    if did_train_only then
      let s := s.gsDec
      let s := FitLoop.check_checkpoint_callback true false s
      (s.gsInc, none)
    else (s, none)

/-- `FitLoop.on_run_end` (fit_loop.py lines 204-237): returns immediately when
`_teardown_already_run`; otherwise sets the guard, decrements `current_epoch`,
runs the last checkpoint-callback check inside the step shim, fires the
`on_train_end` hook, finalizes the logger (when present), asks the profiler for
a summary, notifies the accelerator, and clears the running stage. -/
def on_run_end (s : FitState) : FitState :=
  if s.loop.teardown_already_run then s
  else
    let s := { s with loop := { s.loop with teardown_already_run := true } }
    let s := { s with loop := { s.loop with iteration_count := s.loop.iteration_count - 1 } }
    let s := s.gsDec
    let s := FitLoop.check_checkpoint_callback true true s
    let s := s.gsInc
    let s := s.addTrace "call_hook: on_train_end"
    let s := if s.trainer.logger_present then s.addTrace "logger.finalize: success" else s
    let s := s.addTrace "profiler.describe"
    let s := s.addTrace "accelerator.on_train_end"
    { s with trainer := { s.trainer with running_stage := none } }

/-- The `LoopSpec` instance `FitLoop` presents to the generic `Loop.run` engine:
its overridden hooks, `reset`, and its (trainer-updating) `done`; the iteration
counter lives at `loop.iteration_count` and the increment is the inherited
`increment_iteration(iteration) = iteration + 1`. -/
def loopSpec (child_run : TrainingEpochLoop → TrainingEpochLoop × Option Int) :
    LoopSpec FitState Unit :=
  { reset := fun s => { s with loop := s.loop.reset }
    done := fun s =>
      let p := s.loop.done s.trainer
      (p.1, { s with trainer := p.2 })
    on_run_start := FitLoop.on_run_start
    on_advance_start := FitLoop.on_advance_start
    advance := FitLoop.advance child_run
    on_advance_end := FitLoop.on_advance_end
    on_run_end := fun s => (FitLoop.on_run_end s, ())
    iteration_count_get := fun s => s.loop.iteration_count
    iteration_count_set := fun n s => { s with loop := { s.loop with iteration_count := n } }
    increment_iteration := fun iteration => iteration + 1 }

/-- `FitLoop._should_skip_training: return self.done or self.trainer.num_training_batches == 0`.
Evaluating `self.done` may clear `trainer.should_stop`, so the updated state is
returned alongside the verdict (Python `or` short-circuits, but the second
operand has no effect, so evaluation order does not matter here). -/
def should_skip_training (s : FitState) : Bool × FitState :=
  let p := s.loop.done s.trainer
  (p.1 || decide (p.2.num_training_batches = 0), { s with trainer := p.2 })

/-- `FitLoop.run`: returns immediately (with Python's implicit `None`) when
`_should_skip_training()`, otherwise delegates to the base `Loop.run`. -/
def run (child_run : TrainingEpochLoop → TrainingEpochLoop × Option Int)
    (fuel : Nat) (s : FitState) : (FitState × Option Unit) × Option PyExc :=
  let p := should_skip_training s
  if p.1 then ((p.2, none), none)
  else Loop.run (loopSpec child_run) fuel p.2

end FitLoop

/-!
## Concrete collaborator instantiations and states used by the theorems below
-/

/-- A trainer context with no pending stop request. -/
def trainerQuiet : FitTrainer :=
  { should_stop := false
    num_training_batches := 4
    reload_dataloaders_every_epoch := false
    disable_validation := true
    should_skip_evaluation := true
    has_trained := true
    logger_present := true
    num_checkpoint_callbacks := 1
    any_checkpoint_save_last_verbose := false
    running_stage := some "train" }

/-- The same trainer context with an externally-signalled stop request. -/
def trainerStopRequested : FitTrainer := { trainerQuiet with should_stop := true }

/-- A child training-epoch run for the three-epoch scenario: every epoch sees
4 batches, takes 4 optimizer steps, and yields a non-empty epoch output. -/
def scenarioChildRun : TrainingEpochLoop → TrainingEpochLoop × Option Int :=
  fun tl => ({ tl with global_step := tl.global_step + 4, batches_seen := 4 }, some 1)

/-- The scenario start state: `FitLoop(min_epochs=1, max_epochs=3)` freshly
constructed and connected to a quiet trainer. -/
def scenarioState : FitState :=
  { loop := FitLoop.init (some 1) (some 3) none none
    trainer := trainerQuiet
    trace := [] }

/-- Concrete evaluation collaborators: testing mode, identity step-end hook,
append-to-list output accumulation. -/
def evalCollab : EvalTrainer :=
  { testing := true
    global_rank := 0
    world_size := 1
    test_step := fun _ => some (StepOutput.plain 0)
    validation_step := fun _ => some (StepOutput.plain 0)
    call_hook_step_end := fun _ output => output
    track_output_for_epoch_end := fun outputs output =>
      match output with
      | some o => outputs ++ [o]
      | none => outputs }

/-- An evaluation-loop state whose dataloader iterator yields a `None` batch
first (stale pre-run fields on purpose: `run` resets them). -/
def evalStateNoneBatch : EvalState :=
  { iteration_count := 7
    predictions := none
    dl_max_batches := some 99
    dataloader_idx := some 3
    num_dataloaders := some 2
    outputs := [StepOutput.plain 42]
    dataloader_iter := [(0, none), (1, some 11)]
    trace := [] }

/-- An evaluation-loop state mid-run with two active dataloaders in testing
mode, as `on_run_start` would have left it. -/
def evalStateTwoLoaders : EvalState :=
  { iteration_count := 0
    predictions := some ⟨0, 1, []⟩
    dl_max_batches := some 4
    dataloader_idx := some 1
    num_dataloaders := some 2
    outputs := []
    dataloader_iter := [(0, some 10), (1, some 11)]
    trace := [] }

/-- A `FitLoop` whose `min_epochs` bound is literally `0` (not unset). -/
def fitLoopZeroMinEpochs : FitLoop :=
  { FitLoop.init none none none none with min_epochs := some 0 }

/-- A `FitLoop` bounded only by `max_steps = 1`, fresh from construction. -/
def fitLoopMaxStepsOne : FitLoop := FitLoop.init none none none (some 1)

/-- The same loop after its previous run took one optimizer step. -/
def fitLoopMaxStepsOneStepped : FitLoop :=
  { fitLoopMaxStepsOne with training_loop :=
      { fitLoopMaxStepsOne.training_loop with global_step := 1 } }

/-!
## Helper lemmas (shared)
-/

lemma FitState.addTrace_loop (name : String) (s : FitState) : (s.addTrace name).loop = s.loop := rfl

lemma FitState.gsDec_teardown (s : FitState) :
    s.gsDec.loop.teardown_already_run = s.loop.teardown_already_run := rfl

lemma FitState.gsInc_teardown (s : FitState) :
    s.gsInc.loop.teardown_already_run = s.loop.teardown_already_run := rfl

lemma FitLoop.check_checkpoint_callback_loop (should_update is_last : Bool) (s : FitState) :
    (FitLoop.check_checkpoint_callback should_update is_last s).loop = s.loop := by
  unfold FitLoop.check_checkpoint_callback
  split
  · split <;> rfl
  · rfl

lemma FitLoop.check_checkpoint_callback_trainer (should_update is_last : Bool) (s : FitState) :
    (FitLoop.check_checkpoint_callback should_update is_last s).trainer = s.trainer := by
  unfold FitLoop.check_checkpoint_callback
  split
  · split <;> rfl
  · rfl

/-- After a first (effective) `on_run_end`, the teardown guard is set. -/
lemma FitLoop.on_run_end_sets_guard (s : FitState) :
    (FitLoop.on_run_end s).loop.teardown_already_run = true ∨
      (FitLoop.on_run_end s = s ∧ s.loop.teardown_already_run = true) := by
  unfold FitLoop.on_run_end
  by_cases h : s.loop.teardown_already_run
  · right; simp [h]
  · left
    rw [if_neg h]
    simp only [FitState.addTrace, FitState.gsDec, FitState.gsInc,
      FitLoop.check_checkpoint_callback_loop, FitLoop.check_checkpoint_callback_trainer]
    split <;>
      simp [FitState.addTrace, FitState.gsInc, FitState.gsDec,
        FitLoop.check_checkpoint_callback_loop]

/-!
## Claim theorems
-/

/-- C4: `FitLoop` construction defaulting — the effective `max_epochs` is 1000
exactly when both `max_epochs` and `max_steps` were `None` (otherwise it keeps
the given value, including `None`), and the effective `min_epochs` is 1 exactly
when both `min_epochs` and `min_steps` were `None` (otherwise it keeps the
given value). -/
theorem fitloop_init_defaulting (min_epochs max_epochs min_steps max_steps : Option Int) :
    (FitLoop.init min_epochs max_epochs min_steps max_steps).max_epochs =
      (if max_epochs = none ∧ max_steps = none then some 1000 else max_epochs) ∧
    (FitLoop.init min_epochs max_epochs min_steps max_steps).min_epochs =
      (if min_epochs = none ∧ min_steps = none then some 1 else min_epochs) :=
  ⟨rfl, rfl⟩

/-- C10: a minimum bound of `0` behaves as if unset (Python truthiness of the
`if self.min_epochs` / `if self.min_steps` guards): with `min_epochs = 0` or
`min_steps = 0` the corresponding minimum is met regardless of the counters, a
stop request is then honored immediately (`done` is true and the flag is not
cleared), and a deferral can only come from a strictly positive bound. -/
theorem fitloop_zero_min_bound_behaves_unset (self : FitLoop) (tr : FitTrainer) :
    (self.min_epochs = some 0 → self.met_min_epochs = true) ∧
    (self.min_steps = some 0 → self.met_min_steps = true) ∧
    (tr.should_stop = true → self.met_min_epochs = true → self.met_min_steps = true →
      (self.done tr).1 = true ∧ (self.done tr).2 = tr) ∧
    (0 ≤ self.current_epoch → self.met_min_epochs = false →
      ∃ m, self.min_epochs = some m ∧ 0 < m) ∧
    (0 ≤ self.global_step → self.met_min_steps = false →
      ∃ m, self.min_steps = some m ∧ 0 < m) := by
  refine ⟨?_, ?_, ?_, ?_, ?_⟩
  · intro h; simp [FitLoop.met_min_epochs, h, pyTruthy]
  · intro h; simp [FitLoop.met_min_steps, h, pyTruthy]
  · intro hstop hme hms
    simp [FitLoop.done, hstop, hme, hms]
  · intro hpos hunmet
    unfold FitLoop.met_min_epochs at hunmet
    rcases hmin : self.min_epochs with _ | m
    · simp [hmin, pyTruthy] at hunmet
    · refine ⟨m, rfl, ?_⟩
      by_cases hm : m = 0
      · simp [hmin, pyTruthy, hm] at hunmet
      · simp [hmin, pyTruthy, hm] at hunmet
        omega
  · intro hpos hunmet
    unfold FitLoop.met_min_steps at hunmet
    rcases hmin : self.min_steps with _ | m
    · simp [hmin, pyTruthy] at hunmet
    · refine ⟨m, rfl, ?_⟩
      by_cases hm : m = 0
      · simp [hmin, pyTruthy, hm] at hunmet
      · simp [hmin, pyTruthy, hm] at hunmet
        omega

/-- C10 witness: with `min_epochs = 0` and a stop request at `current_epoch = 0`,
`done` is immediately true and the flag is untouched. -/
theorem fitloop_zero_min_bound_behaves_unset_witness :
    (fitLoopZeroMinEpochs.done trainerStopRequested).1 = true ∧
    (fitLoopZeroMinEpochs.done trainerStopRequested).2 = trainerStopRequested :=
  (fitloop_zero_min_bound_behaves_unset fitLoopZeroMinEpochs trainerStopRequested).2.2.1
    (by decide) (by decide) (by decide)

/-- C1 counterexample: the claim says that with a stop request and an unmet
minimum, `done` returns `False`.  But `done` still returns `stop_steps or
should_stop or stop_epochs`: with `min_epochs = 5` unmet at `current_epoch = 0`
but `max_epochs = 0` already reached, `done` is `True` (while the flag is
still cleared). -/
theorem fitloop_done_min_duration_counterexample :
    (FitLoop.init (some 5) (some 0) none none).met_min_epochs = false ∧
    trainerStopRequested.should_stop = true ∧
    ((FitLoop.init (some 5) (some 0) none none).done trainerStopRequested).1 = true ∧
    ((FitLoop.init (some 5) (some 0) none none).done trainerStopRequested).2.should_stop = false := by
  decide

/-- C1 (amended): with a stop request pending and neither the `max_steps` nor
the `max_epochs` bound reached, `done` returns `False` and clears
`trainer.should_stop` when a minimum-duration constraint is unmet, and returns
`True` (flag untouched) when both minimums are met. -/
theorem fitloop_done_min_duration_gating (self : FitLoop) (tr : FitTrainer)
    (hstop : tr.should_stop = true)
    (hsteps : self.stop_steps = false)
    (hepochs : self.stop_epochs = false) :
    (¬ (self.met_min_epochs = true ∧ self.met_min_steps = true) →
        self.done tr = (false, { tr with should_stop := false })) ∧
    (self.met_min_epochs = true ∧ self.met_min_steps = true →
        self.done tr = (true, tr)) := by
  constructor
  · intro hnot
    have hb : (self.met_min_epochs && self.met_min_steps) = false := by
      cases hme : self.met_min_epochs <;> cases hms : self.met_min_steps <;> simp_all
    simp [FitLoop.done, hstop, hb, hsteps, hepochs]
  · rintro ⟨hme, hms⟩
    simp [FitLoop.done, hstop, hme, hms, hsteps, hepochs]

/-- C1 witness: `min_epochs = 5` at `current_epoch = 0` defers the stop
(`done` false, flag cleared); with the spec's met case `min_epochs = 0`-free
constraints all satisfied the request is honored. -/
theorem fitloop_done_min_duration_gating_witness :
    (FitLoop.init (some 5) (some 100) none none).done trainerStopRequested =
      (false, { trainerStopRequested with should_stop := false }) :=
  (fitloop_done_min_duration_gating (FitLoop.init (some 5) (some 100) none none)
      trainerStopRequested (by decide) (by decide) (by decide)).1 (by decide)

/-- C2 counterexample: evaluating `FitLoop.done` is not effect-free — with a
pending stop request and an unmet minimum, it resets `trainer.should_stop`
from `True` to `False`. -/
theorem done_purity_counterexample :
    trainerStopRequested.should_stop = true ∧
    ((FitLoop.init (some 5) (some 100) none none).done trainerStopRequested).2 ≠
      trainerStopRequested := by
  decide

/-- C2 (amended): `done` computes its boolean from the current state alone and
leaves all loop-local state and counters unchanged; the one exception is that
`FitLoop.done` clears `trainer.should_stop` exactly when a stop request is
pending and a minimum-duration constraint is unmet.  `EvaluationLoop`'s `done`
changes nothing. -/
theorem done_frame_effects (self : FitLoop) (tr : FitTrainer)
    (etr : EvalTrainer) (di mb nd : Int) (es : EvalState) :
    (self.done tr).2 =
      (if tr.should_stop && !(self.met_min_epochs && self.met_min_steps)
       then { tr with should_stop := false } else tr) ∧
    ((EvaluationLoop.loopSpec etr di mb nd).done es).2 = es := by
  constructor
  · unfold FitLoop.done
    cases hs : tr.should_stop <;>
      cases hb : (self.met_min_epochs && self.met_min_steps) <;>
        simp_all
  · rfl

/-- C3: `FitLoop.on_run_end` is idempotent per instance — the first call sets
the `_teardown_already_run` guard, and iterating the call any further number of
times changes nothing (all teardown side effects happen at most once). -/
theorem fitloop_on_run_end_idempotent (s : FitState) (n : Nat) :
    (FitLoop.on_run_end s).loop.teardown_already_run = true ∧
    FitLoop.on_run_end^[n + 1] s = FitLoop.on_run_end s := by
  have guard_set : ∀ t : FitState, (FitLoop.on_run_end t).loop.teardown_already_run = true := by
    intro t
    rcases FitLoop.on_run_end_sets_guard t with h | ⟨heq, ht⟩
    · exact h
    · rw [heq]; exact ht
  have skip : ∀ t : FitState, t.loop.teardown_already_run = true → FitLoop.on_run_end t = t := by
    intro t ht
    unfold FitLoop.on_run_end
    simp [ht]
  refine ⟨guard_set s, ?_⟩
  induction n with
  | zero => simp
  | succ k ih =>
    rw [Function.iterate_succ_apply', ih, skip _ (guard_set s)]

/-- Helper: evaluating `FitLoop.done` either returns the trainer unchanged or
only clears its `should_stop` flag. -/
lemma FitLoop.done_trainer_eq (self : FitLoop) (tr : FitTrainer) :
    (self.done tr).2 = tr ∨ (self.done tr).2 = { tr with should_stop := false } := by
  unfold FitLoop.done
  cases hs : tr.should_stop <;>
    cases hb : (self.met_min_epochs && self.met_min_steps) <;> simp_all

/-- C6 counterexample: the two loops below differ only in the child's
`global_step` taken during a previous run; `FitLoop.reset` zeroes only
`iteration_count`, so immediately after `reset()` their `done` predicates
already disagree — previous-run state does leak into the next run. -/
theorem reset_no_leakage_counterexample :
    fitLoopMaxStepsOneStepped =
      { fitLoopMaxStepsOne with training_loop :=
          { fitLoopMaxStepsOne.training_loop with global_step := 1 } } ∧
    (fitLoopMaxStepsOne.reset.done trainerQuiet).1 = false ∧
    (fitLoopMaxStepsOneStepped.reset.done trainerQuiet).1 = true := by
  decide

/-- C6 (amended): immediately after `reset()` the `iteration_count` of either
loop is 0; for `EvaluationLoop` every field `done` reads is re-initialized by
`reset` (its `done` is the same for any pre-reset state — in fact undefined
until `on_run_start` sets `dl_max_batches`), while `FitLoop.reset` clears only
`iteration_count`, leaving `global_step`, the bounds and the trainer flags to
carry over. -/
theorem reset_fresh_iteration_state (etr etr₂ : EvalTrainer) (es es₂ : EvalState)
    (l : FitLoop) :
    (EvaluationLoop.reset etr es).iteration_count = 0 ∧
    EvaluationLoop.done? (EvaluationLoop.reset etr es) =
      EvaluationLoop.done? (EvaluationLoop.reset etr₂ es₂) ∧
    (EvaluationLoop.reset etr es).outputs = [] ∧
    l.reset.iteration_count = 0 ∧
    l.reset = { l with iteration_count := 0 } :=
  ⟨rfl, rfl, rfl, rfl, rfl⟩

/-- C7: the step kwargs always carry `batch` and `batch_idx`, and carry
`dataloader_idx` if and only if the current mode has more than one dataloader. -/
theorem eval_build_kwargs_optional_dataloader_idx (self : EvalState) (testing : Bool)
    (batch batch_idx dataloader_idx n : Int)
    (h : self.num_dataloaders = some n) :
    EvaluationLoop.build_kwargs self testing batch batch_idx dataloader_idx =
      some (if 1 < n then
              [("batch", batch), ("batch_idx", batch_idx), ("dataloader_idx", dataloader_idx)]
            else [("batch", batch), ("batch_idx", batch_idx)]) ∧
    (∀ kw, EvaluationLoop.build_kwargs self testing batch batch_idx dataloader_idx = some kw →
      ("batch", batch) ∈ kw ∧ ("batch_idx", batch_idx) ∈ kw ∧
      (("dataloader_idx", dataloader_idx) ∈ kw ↔ 1 < n)) := by
  have hb : ("dataloader_idx" : String) ≠ "batch" := by decide
  have hbi : ("dataloader_idx" : String) ≠ "batch_idx" := by decide
  have heq : EvaluationLoop.build_kwargs self testing batch batch_idx dataloader_idx =
      some (if 1 < n then
              [("batch", batch), ("batch_idx", batch_idx), ("dataloader_idx", dataloader_idx)]
            else [("batch", batch), ("batch_idx", batch_idx)]) := by
    unfold EvaluationLoop.build_kwargs
    rw [h]
    by_cases hn : 1 < n <;> cases testing <;> simp [hn]
  refine ⟨heq, ?_⟩
  intro kw hkw
  rw [heq] at hkw
  by_cases hn : 1 < n
  · rw [if_pos hn] at hkw
    cases hkw
    simp [hn]
  · rw [if_neg hn] at hkw
    cases hkw
    simp [hn, hb, hbi, Prod.ext_iff]

/-- C7 witness: two dataloaders in testing mode ⇒ `dataloader_idx` present;
the kwargs are exactly batch, batch index and the dataloader index. -/
theorem eval_build_kwargs_optional_dataloader_idx_witness :
    EvaluationLoop.build_kwargs evalStateTwoLoaders true 10 0 1 =
      some [("batch", 10), ("batch_idx", 0), ("dataloader_idx", 1)] := by
  have h := (eval_build_kwargs_optional_dataloader_idx evalStateTwoLoaders true
      10 0 1 2 (by decide)).1
  simpa using h

/-- C8: when at entry `done` is already true or the trainer reports zero
training batches, `FitLoop.run` returns immediately (Python `None`): the skip
verdict is true, no iteration or hook runs (the collaborator trace is
untouched), and the loop state — in particular `current_epoch` — is unchanged;
only `trainer.should_stop` may have been cleared by the `done` evaluation
inside `_should_skip_training`. -/
theorem fitloop_run_skip_condition
    (child_run : TrainingEpochLoop → TrainingEpochLoop × Option Int)
    (fuel : Nat) (s : FitState)
    (h : (s.loop.done s.trainer).1 = true ∨ s.trainer.num_training_batches = 0) :
    (FitLoop.should_skip_training s).1 = true ∧
    FitLoop.run child_run fuel s = (((FitLoop.should_skip_training s).2, none), none) ∧
    ((FitLoop.should_skip_training s).2).loop = s.loop ∧
    ((FitLoop.should_skip_training s).2).trace = s.trace := by
  have hskip : (FitLoop.should_skip_training s).1 = true := by
    unfold FitLoop.should_skip_training
    rcases h with h | h
    · simp [h]
    · rcases FitLoop.done_trainer_eq s.loop s.trainer with heq | heq <;> simp [heq, h]
  refine ⟨hskip, ?_, rfl, rfl⟩
  unfold FitLoop.run
  simp [hskip]

/-- C8 witness: a fresh loop whose trainer reports zero training batches —
`run` is the identity on loop state and trace. -/
theorem fitloop_run_skip_condition_witness :
    (FitLoop.should_skip_training
        { loop := FitLoop.init none none none none
          trainer := { trainerQuiet with num_training_batches := 0 }
          trace := [] }).1 = true :=
  (fitloop_run_skip_condition scenarioChildRun 5
      { loop := FitLoop.init none none none none
        trainer := { trainerQuiet with num_training_batches := 0 }
        trace := [] }
      (Or.inr (by decide))).1

/-- C9: the end-to-end three-epoch scenario — `FitLoop(min_epochs=1,
max_epochs=3)`, every epoch yielding a non-empty training-epoch result, no
stop signal and no step bound: the run completes normally (result is Python
`None`, modelled as `some ()`), the epoch-start hook fired three times (one
per completed epoch, so `iteration_count` reached 3), the teardown ran exactly
once, and the final `current_epoch` is 2. -/
theorem fitloop_three_epoch_scenario :
    (FitLoop.run scenarioChildRun 10 scenarioState).1.1.loop.current_epoch = 2 ∧
    (FitLoop.run scenarioChildRun 10 scenarioState).1.2 = some () ∧
    (FitLoop.run scenarioChildRun 10 scenarioState).2 = none ∧
    ((FitLoop.run scenarioChildRun 10 scenarioState).1.1.trace.count
        "call_hook: on_train_epoch_start") = 3 ∧
    ((FitLoop.run scenarioChildRun 10 scenarioState).1.1.trace.count
        "profiler.describe") = 1 := by
  decide

/-- Helper: one symbolic step of the guarded while body when `advance` raises. -/
lemma Loop.runCatch_stopIteration_exit {σ ρ : Type} (L : LoopSpec σ ρ) (fuel : Nat)
    (s s₃ s₄ s₅ : σ)
    (hdone : L.done s = (false, s₃))
    (hstart : L.on_advance_start s₃ = (s₄, none))
    (hadv : L.advance s₄ = (s₅, some PyExc.stopIteration)) :
    Loop.runCatch L (fuel + 1) s = (s₅, none) := by
  simp [Loop.runCatch, hdone, hstart, hadv]

/-- Helper: the same step when `advance` raises a non-`StopIteration` exception. -/
lemma Loop.runCatch_other_exc {σ ρ : Type} (L : LoopSpec σ ρ) (fuel : Nat)
    (s s₃ s₄ s₅ : σ) (msg : String)
    (hdone : L.done s = (false, s₃))
    (hstart : L.on_advance_start s₃ = (s₄, none))
    (hadv : L.advance s₄ = (s₅, some (PyExc.other msg))) :
    Loop.runCatch L (fuel + 1) s = (s₅, some (PyExc.other msg)) := by
  simp [Loop.runCatch, hdone, hstart, hadv]

/-- Helper: the same step when `on_advance_start` raises a non-`StopIteration`
exception. -/
lemma Loop.runCatch_advance_start_exc {σ ρ : Type} (L : LoopSpec σ ρ) (fuel : Nat)
    (s s₃ t : σ) (msg : String)
    (hdone : L.done s = (false, s₃))
    (hstart : L.on_advance_start s₃ = (t, some (PyExc.other msg))) :
    Loop.runCatch L (fuel + 1) s = (t, some (PyExc.other msg)) := by
  simp [Loop.runCatch, hdone, hstart]

/-- Helper: the same step when `on_advance_end` raises a non-`StopIteration`
exception after a normal `advance`. -/
lemma Loop.runCatch_advance_end_exc {σ ρ : Type} (L : LoopSpec σ ρ) (fuel : Nat)
    (s s₃ s₄ s₅ t : σ) (msg : String)
    (hdone : L.done s = (false, s₃))
    (hstart : L.on_advance_start s₃ = (s₄, none))
    (hadv : L.advance s₄ = (s₅, none))
    (hend : L.on_advance_end s₅ = (t, some (PyExc.other msg))) :
    Loop.runCatch L (fuel + 1) s = (t, some (PyExc.other msg)) := by
  simp [Loop.runCatch, hdone, hstart, hadv, hend]

/-- C5: early-termination semantics of `Loop.run`.
  * If `on_run_start` raises a non-`StopIteration` exception, it propagates
    unmodified out of `run` and `on_run_end` is never reached.
  * If the run reaches its first iteration (`on_run_start` normal, `done`
    false): a non-`StopIteration` exception from the `on_advance_start` hook
    propagates unmodified; and once `on_advance_start` returns normally,
      - `StopIteration` from `advance` exits the loop immediately with exactly
        the state `advance` left behind — `on_advance_end` is not applied and
        `iteration_count` is not incremented (the result state is `s₅`
        itself) — the signal is swallowed, and `run` returns the result of
        `on_run_end`;
      - any other exception from `advance` propagates unmodified with
        `on_run_end` unreached;
      - a non-`StopIteration` exception from the `on_advance_end` hook (after
        a normal `advance`) also propagates unmodified with `on_run_end`
        unreached.
  * `EvaluationLoop.advance` raises exactly this `StopIteration` signal when
    the dataloader iterator yields a `None` batch. -/
theorem loop_run_early_termination {σ ρ : Type} (L : LoopSpec σ ρ) (fuel : Nat)
    (s₀ s₁ s₂ s₃ s₄ : σ)
    (hreset : L.reset s₀ = s₁) :
    (∀ t msg, L.on_run_start s₁ = (t, some (PyExc.other msg)) →
      Loop.run L fuel s₀ = ((t, none), some (PyExc.other msg))) ∧
    (L.on_run_start s₁ = (s₂, none) → L.done s₂ = (false, s₃) →
      ((∀ t msg, L.on_advance_start s₃ = (t, some (PyExc.other msg)) →
          Loop.run L (fuel + 1) s₀ = ((t, none), some (PyExc.other msg))) ∧
       (L.on_advance_start s₃ = (s₄, none) →
        ((∀ s₅, L.advance s₄ = (s₅, some PyExc.stopIteration) →
            Loop.run L (fuel + 1) s₀ =
              (((L.on_run_end s₅).1, some (L.on_run_end s₅).2), none)) ∧
         (∀ s₅ msg, L.advance s₄ = (s₅, some (PyExc.other msg)) →
            Loop.run L (fuel + 1) s₀ = ((s₅, none), some (PyExc.other msg))) ∧
         (∀ s₅ t msg, L.advance s₄ = (s₅, none) →
            L.on_advance_end s₅ = (t, some (PyExc.other msg)) →
            Loop.run L (fuel + 1) s₀ = ((t, none), some (PyExc.other msg))))))) ∧
    (∀ (etr : EvalTrainer) (di bi : Int) (rest : List (Int × Option Int)) (es : EvalState),
      es.dataloader_iter = (bi, none) :: rest →
      EvaluationLoop.advance etr di es =
        ({ es with dataloader_iter := rest }, some PyExc.stopIteration)) := by
  refine ⟨?_, ?_, ?_⟩
  · intro t msg hrs
    simp [Loop.run, hreset, hrs]
  · intro hstart hdone
    constructor
    · intro t msg hast
      have hrc := Loop.runCatch_advance_start_exc L fuel s₂ s₃ t msg hdone hast
      simp [Loop.run, hreset, hstart, hrc]
    · intro hast
      refine ⟨?_, ?_, ?_⟩
      · intro s₅ hadv
        have hrc := Loop.runCatch_stopIteration_exit L fuel s₂ s₃ s₄ s₅ hdone hast hadv
        simp [Loop.run, hreset, hstart, hrc]
      · intro s₅ msg hadv
        have hrc := Loop.runCatch_other_exc L fuel s₂ s₃ s₄ s₅ msg hdone hast hadv
        simp [Loop.run, hreset, hstart, hrc]
      · intro s₅ t msg hadv hend
        have hrc := Loop.runCatch_advance_end_exc L fuel s₂ s₃ s₄ s₅ t msg hdone hast hadv hend
        simp [Loop.run, hreset, hstart, hrc]
  · intro etr di bi rest es hit
    simp [EvaluationLoop.advance, hit]

/-- C5 witness: a concrete evaluation run over a dataloader whose first yield
is a `None` batch finishes silently (no exception) with the empty outputs that
`on_run_end` returns. -/
theorem loop_run_early_termination_witness :
    (Loop.run (EvaluationLoop.loopSpec evalCollab 3 5 2) (9 + 1) evalStateNoneBatch).2 = none ∧
    (Loop.run (EvaluationLoop.loopSpec evalCollab 3 5 2) (9 + 1) evalStateNoneBatch).1.2 =
      some [] := by
  have h := (((loop_run_early_termination (EvaluationLoop.loopSpec evalCollab 3 5 2) 9
      evalStateNoneBatch _ _ _ _ rfl).2.1 rfl rfl).2 rfl).1 _ rfl
  rw [h]
  exact ⟨rfl, rfl⟩
